import Mathlib

/-!
Verification development for the textual-zptess repository.

The Python sources are shallowly embedded: pure functions over Python
floats are modelled as functions over the rationals (exact real
arithmetic; the numeric claims carry tolerances that absorb rounding),
functions of the statistics module are re-implemented following the
CPython documentation and source, and the two payload decoders of
src/zptess/photometer/protocol/payload.py are modelled as explicit
state-passing functions (the mutable _prev_msg attribute becomes an
input/output value).  Real-valued quantities produced through
math.log10 and math.sqrt are modelled with Real.logb 10 and Real.sqrt.
-/

/-! ## Python statistics helpers (statistics module functions used by the code) -/

/-- Model of statistics.mean and statistics.fmean: the exact arithmetic
mean of a list.  On the empty list Python raises; here the value is 0
(division by zero) and theorems add nonemptiness hypotheses. -/
def pyMean {α : Type} [LinearOrderedField α] (xs : List α) : α :=
  xs.sum / xs.length

/-- Sorting as done by Python sorted(): ascending order. -/
def pySorted {α : Type} [LinearOrderedField α]
    [DecidableRel (fun (a b : α) => a ≤ b)] (xs : List α) : List α :=
  List.insertionSort (fun a b => a ≤ b) xs

/-- Model of statistics.median: middle element of the sorted list for odd
length, average of the two middle elements for even length. -/
def pyMedian {α : Type} [LinearOrderedField α]
    [DecidableRel (fun (a b : α) => a ≤ b)] (xs : List α) : α :=
  let s := pySorted xs
  let n := xs.length
  if n % 2 = 1 then s.getD (n / 2) 0
  else (s.getD (n / 2 - 1) 0 + s.getD (n / 2) 0) / 2

/-- Model of statistics.median_low: middle element of the sorted list for
odd length, the lower of the two middle elements for even length. -/
def pyMedianLow {α : Type} [LinearOrderedField α]
    [DecidableRel (fun (a b : α) => a ≤ b)] (xs : List α) : α :=
  let s := pySorted xs
  let n := xs.length
  if n % 2 = 1 then s.getD (n / 2) 0 else s.getD (n / 2 - 1) 0

/-- Model of statistics.mode: the first value of the list attaining the
maximal multiplicity (Counter preserves encounter order and
most_common is stable, so ties keep the first encountered value). -/
def pyMode {α : Type} [LinearOrderedField α] [DecidableEq α] (xs : List α) : α :=
  match xs with
  | [] => 0
  | x :: _ => xs.foldl (fun best a =>
      if xs.countP (fun v => v = a) > xs.countP (fun v => v = best) then a else best) x

/-- Sum of squared deviations of a list around a reference value c. -/
def sumSqDev {α : Type} [LinearOrderedField α] (c : α) (xs : List α) : α :=
  (xs.map (fun x => (x - c) ^ 2)).sum

/-- Model of the radicand of statistics.stdev(xs, xbar): the sample
variance of xs computed against the supplied reference mean xbar,
that is sum((x - xbar)^2) / (n - 1).  Python raises for n < 2;
theorems about it carry a length hypothesis. -/
def pyVarAgainst {α : Type} [LinearOrderedField α] (xbar : α) (xs : List α) : α :=
  sumSqDev xbar xs / ((xs.length : α) - 1)

/-- Model of statistics.stdev(xs, xbar): square root of the sample
variance computed against the supplied reference mean. -/
noncomputable def pyStdev (xbar : ℚ) (xs : List ℚ) : ℝ :=
  Real.sqrt ((pyVarAgainst xbar xs : ℚ) : ℝ)

/-! ## Legacy fixed-format decoder (class OldPayload of payload.py)

The two regular expressions of OldPayload.UNSOLICITED_RESPONSES are
fixed-width patterns; they are embedded as a character-level matcher
over the decoded text of the frame.  Both patterns are anchored at the
start of the line and leave any trailing text unconstrained, exactly
like re.search with a leading caret. -/

/-- ASCII decimal digit test. -/
def isAsciiDigit (c : Char) : Bool := ('0' ≤ c && c ≤ '9')

/-- Numeric value of an ASCII digit. -/
def digVal (c : Char) : Nat := c.toNat - 48

/-- Read exactly n ASCII digits, most significant first, accumulating
their value; fails if a non-digit or the end of input is met. -/
def readDigits : Nat → Nat → List Char → Option (Nat × List Char)
  | 0, acc, cs => some (acc, cs)
  | n + 1, acc, c :: cs =>
      if isAsciiDigit c then readDigits n (10 * acc + digVal c) cs else none
  | _ + 1, _, [] => none

/-- Consume an exact literal character sequence. -/
def stripLit : List Char → List Char → Option (List Char)
  | [], cs => some cs
  | l :: ls, c :: cs => if c = l then stripLit ls cs else none
  | _ :: _, [] => none

/-- Read the sign character of a signed four-digit group, the character
class [+-] of the patterns. -/
def readSigned4 : List Char → Option (Int × List Char) :=
  fun cs =>
    match cs with
    | '+' :: rest =>
        match readDigits 4 0 rest with
        | some (v, cs2) => some ((v : Int), cs2)
        | none => none
    | '-' :: rest =>
        match readDigits 4 0 rest with
        | some (v, cs2) => some (-(v : Int), cs2)
        | none => none
    | _ => none

/-- The numeric groups captured by one of the two legacy patterns:
the variant flag (true for the fH pattern, false for fm), the five
digit frequency field and the three signed four-digit fields.  The
frequency group also admits a leading space or plus, the character
class [ +] of the patterns; float() ignores it for the space and
keeps the sign for the plus, and the captured value is nonnegative
either way. -/
structure OldGroups where
  hz : Bool
  freqNum : Nat
  tboxNum : Int
  tskyNum : Int
  mzNum : Int
deriving DecidableEq

/-- Match one legacy pattern whose frequency tag character is given
(tag H for the Hz message pattern, tag m for the mHz one). -/
def oldMatchOne (tag : Char) (cs : List Char) : Option (Nat × Int × Int × Int) := do
  let cs ← stripLit ['<', 'f', tag] cs
  match cs with
  | c1 :: cs => do
      if c1 = ' ' ∨ c1 = '+' then
        let (f, cs) ← readDigits 5 0 cs
        let cs ← stripLit ['>', '<', 't', 'A', ' '] cs
        let (a, cs) ← readSigned4 cs
        let cs ← stripLit ['>', '<', 't', 'O', ' '] cs
        let (o, cs) ← readSigned4 cs
        let cs ← stripLit ['>', '<', 'm', 'Z', ' '] cs
        let (z, cs) ← readSigned4 cs
        let _ ← stripLit ['>'] cs
        pure (f, a, o, z)
      else none
  | [] => none

/-- OldPayload._match_unsolicited: try the Hz pattern first and then the
mHz pattern, in the order of UNSOLICITED_RESPONSES. -/
def oldMatch (line : String) : Option OldGroups :=
  match oldMatchOne 'H' line.data with
  | some (f, a, o, z) => some { hz := true, freqNum := f, tboxNum := a, tskyNum := o, mzNum := z }
  | none =>
      match oldMatchOne 'm' line.data with
      | some (f, a, o, z) => some { hz := false, freqNum := f, tboxNum := a, tskyNum := o, mzNum := z }
      | none => none

/-- The message dictionary built by OldPayload._handle_unsolicited_response.
Timestamps are abstracted to rationals. -/
structure OldMessage where
  freq : ℚ
  tbox : ℚ
  tsky : ℚ
  zp : ℚ
  tstamp : ℚ
deriving DecidableEq

/-- Field scaling of OldPayload._handle_unsolicited_response: the three
signed groups are divided by 100, the frequency group by 1 for the Hz
message and by 1000 for the mHz message. -/
def oldBuildMessage (g : OldGroups) (tstamp : ℚ) : OldMessage :=
  { freq := if g.hz then (g.freqNum : ℚ) / 1 else (g.freqNum : ℚ) / 1000
    tbox := (g.tboxNum : ℚ) / 100
    tsky := (g.tskyNum : ℚ) / 100
    zp := (g.mzNum : ℚ) / 100
    tstamp := tstamp }

/-- OldPayload._deduplicate, including the comparison of the new freq
field against the tbox field of the previous message exactly as in the
source (line 120 of payload.py).  Returns the value Python returns and
the new _prev_msg state. -/
def oldDeduplicate (prev : Option OldMessage) (m : OldMessage) :
    Option OldMessage × Option OldMessage :=
  match prev with
  | none => (none, some m)
  | some p => (if m.tbox = p.tbox ∧ m.freq = p.tbox then none else some p, some m)

/-- OldPayload.decode / _handle_unsolicited_response as a state-passing
function: given the retained previous message, the frame text and the
arrival timestamp, return the (handled, message) pair of the source
together with the new retained state.  The result of _deduplicate is
computed for its state effect and discarded, as in the source
(lines 113 and 114 of payload.py return the freshly decoded message). -/
def oldDecode (prev : Option OldMessage) (line : String) (tstamp : ℚ) :
    (Bool × Option OldMessage) × Option OldMessage :=
  match oldMatch line with
  | none => ((false, none), prev)
  | some g =>
      let m := oldBuildMessage g tstamp
      let r := oldDeduplicate prev m
      ((true, some m), r.2)

/-! ## Structured-text decoder (class JSONPayload of payload.py)

json.loads itself is external library code; its outcome is embedded as
a value of ParsedFrame: the call either raises (malformed input), or
returns a non-dict value, or returns a dict, which is modelled as an
association list of string keys and values.  The decoder logic after
the parse, including the KeyError a missing key raises during
deduplication, is embedded faithfully; Python exceptions escaping
decode are modelled with Except. -/

/-- Values stored in a decoded structured message: JSON numbers and
strings, plus the datetime object decode inserts under the tstamp key
(timestamps abstracted to rationals). -/
inductive JVal where
  | num (q : ℚ)
  | str (s : String)
  | dt (t : ℚ)
deriving DecidableEq

/-- A Python dict with string keys, as an association list in insertion
order. -/
abbrev JObject := List (String × JVal)

/-- Dict lookup: some value or none when the key is absent (Python
raises KeyError in the latter case; callers model that explicitly). -/
def jsonGet (o : JObject) (k : String) : Option JVal :=
  (o.find? (fun p => p.1 = k)).map (fun p => p.2)

/-- Dict assignment d[k] = v: replace the value of an existing key in
place, else append the new key. -/
def jsonSet (o : JObject) (k : String) (v : JVal) : JObject :=
  if (o.find? (fun p => p.1 = k)).isSome then
    o.map (fun p => if p.1 = k then (k, v) else p)
  else o ++ [(k, v)]

/-- Outcome of json.loads on a frame: the call raises, or returns a
non-dict value, or returns a dict. -/
inductive ParsedFrame where
  | malformed
  | nonDict (v : JVal)
  | dict (o : JObject)

/-- JSONPayload._deduplicate: with no previous message, retain the new
one and return None; otherwise compare the udp fields and return the
previous message when they differ, None when they are equal, retaining
the new message.  Accessing a missing udp key raises KeyError (the
previous message is read first, as in the source expression); the
exception propagates before _prev_msg is reassigned. -/
def jsonDeduplicate (prev : Option JObject) (m : JObject) :
    Except String (Option JObject × Option JObject) :=
  match prev with
  | none => .ok (none, some m)
  | some p =>
      match jsonGet p "udp" with
      | none => .error "KeyError: udp"
      | some pu =>
          match jsonGet m "udp" with
          | none => .error "KeyError: udp"
          | some mu => .ok (if pu ≠ mu then some p else none, some m)

/-- JSONPayload.decode as a state-passing function over the parse
outcome of the frame: malformed input and non-dict values are rejected
with (False, None); a dict gets the arrival timestamp inserted under
the tstamp key and is passed through deduplication, and the value
returned with True is the message _deduplicate returned, which is the
previously retained message or None, never the one just decoded. -/
def jsonDecode (prev : Option JObject) (frame : ParsedFrame) (tstamp : ℚ) :
    Except String ((Bool × Option JObject) × Option JObject) :=
  match frame with
  | .malformed => .ok ((false, none), prev)
  | .nonDict _ => .ok ((false, none), prev)
  | .dict o =>
      let m := jsonSet o "tstamp" (.dt tstamp)
      match jsonDeduplicate prev m with
      | .error e => .error e
      | .ok r => .ok ((true, r.1), r.2)

/-- Run the structured-text decoder over a list of (parse outcome,
timestamp) frames from a given retained state, collecting the
(handled, message) outputs; an escaping exception aborts the run. -/
def jsonRun (prev : Option JObject) :
    List (ParsedFrame × ℚ) → Except String (List (Bool × Option JObject) × Option JObject)
  | [] => .ok ([], prev)
  | (f, t) :: rest =>
      match jsonDecode prev f t with
      | .error e => .error e
      | .ok (out, st) =>
          match jsonRun st rest with
          | .error e => .error e
          | .ok (outs, fin) => .ok (out :: outs, fin)

/-- The readings a run emits: the non-None messages returned with a
True handled flag (these are what handle_readings forwards). -/
def emittedReadings (outs : List (Bool × Option JObject)) : List JObject :=
  outs.filterMap (fun p => if p.1 then p.2 else none)

/-! ## Channel between decode stage and aggregation stage

Two producer variants exist in the source.  The Photometer of
photometer/tessw.py creates asyncio.Queue() with the default maxsize 0
(unbounded) and calls put_nowait inside try/except, logging and
discarding the message on an exception.  The Photometer of
photometer/protocol/tessw.py awaits send on an anyio memory object
stream created by controller.py with max_buffer_size 4; anyio send
suspends the caller while the buffer is full. -/

/-- Model of asyncio.Queue: maxsize 0 means unbounded. -/
structure AsyncioQueue (α : Type) where
  maxsize : Nat
  items : List α
deriving DecidableEq

/-- Outcome of put_nowait: the new queue, or the QueueFull exception. -/
inductive PutResult (α : Type) where
  | ok (q : AsyncioQueue α)
  | full
deriving DecidableEq

/-- asyncio.Queue.put_nowait: raises QueueFull exactly when maxsize is
positive and the queue already holds at least maxsize items, else
appends the item. -/
def putNowait {α : Type} (q : AsyncioQueue α) (m : α) : PutResult α :=
  if 0 < q.maxsize ∧ q.maxsize ≤ q.items.length then .full
  else .ok { q with items := q.items ++ [m] }

/-- The queue the Photometer of photometer/tessw.py constructs:
asyncio.Queue() with default maxsize, hence unbounded. -/
def photometerQueue (α : Type) : AsyncioQueue α :=
  { maxsize := 0, items := [] }

/-- handle_readings of photometer/tessw.py: when the decode flag is
true, try put_nowait; on an exception the message is logged and
discarded.  Returns the queue afterwards and whether the message was
discarded. -/
def queueHandleReadings {α : Type} (q : AsyncioQueue α) (flag : Bool) (message : α) :
    AsyncioQueue α × Bool :=
  if flag then
    match putNowait q message with
    | .ok q2 => (q2, false)
    | .full => (q, true)
  else (q, false)

/-- Outcome of awaiting send on an anyio memory object stream with no
receiver currently waiting: the item enters the buffer when there is
room, otherwise the sender suspends. -/
inductive SendOutcome (α : Type) where
  | sent (buffer : List α)
  | blocked
deriving DecidableEq

/-- anyio MemoryObjectSendStream.send against a buffer of the given
capacity. -/
def streamSend {α : Type} (capacity : Nat) (buffer : List α) (m : α) : SendOutcome α :=
  if buffer.length < capacity then .sent (buffer ++ [m]) else .blocked

/-- The buffer capacity controller.py passes to
anyio.create_memory_object_stream. -/
def controllerBufferSize : Nat := 4

/-- handle_readings of photometer/protocol/tessw.py: when the decode
flag is true, await send of the raw (payload, timestamp) pair on the
stream; there is no exception handling and no drop branch. -/
def streamHandleReadings {α : Type} (buffer : List α) (flag : Bool) (item : α) :
    SendOutcome α :=
  if flag then streamSend controllerBufferSize buffer item else .sent buffer

/-! ## Central tendency dispatch and the quality-assurance verifier

The entities mirror the ORM model of dbase/model.py: nullable columns
become Option fields, floats become rationals, datetimes become
rationals.  The method columns (central of rounds_t,
freq_method and zero_point_method of summary_t) are strings in the
database; qa.py compares such a value against members of the
CentralTendency enum with the Python == operator, and a string never
equals an enum member, so the dispatch outcome depends on the runtime
type of the value.  PyMethodVal captures both possible runtime types. -/

/-- The CentralTendency enum of the zptess package. -/
inductive CentralTendency where
  | mean
  | median
  | mode
deriving DecidableEq

/-- A Python value held by a method attribute: either a string (what
the database columns store) or a CentralTendency enum member. -/
inductive PyMethodVal where
  | str (s : String)
  | enum (c : CentralTendency)
deriving DecidableEq

/-- Python == between a method attribute value and a CentralTendency
member: a plain string never equals an enum member; two members are
equal when they are the same member. -/
def pyEqMethod : PyMethodVal → CentralTendency → Bool
  | .str _, _ => false
  | .enum a, b => a = b

/-- The central function of dbase/qa.py (lines 63 to 69): statistics.mode
by default, statistics.mean when the method value equals
CentralTendency.MEAN, statistics.median when it equals
CentralTendency.MEDIAN. -/
def qaCentral {α : Type} [LinearOrderedField α] [DecidableEq α]
    [DecidableRel (fun (a b : α) => a ≤ b)] (method : PyMethodVal) : List α → α :=
  if pyEqMethod method .mean then pyMean
  else if pyEqMethod method .median then pyMedian
  else pyMode

/-- Role of a photometer within a calibration session. -/
inductive PyRole where
  | ref
  | test
deriving DecidableEq

/-- A row of the rounds_t table as read back by the verifier. -/
structure RoundRec where
  seq : Nat
  role : PyRole
  freq : Option ℚ
  central : PyMethodVal
  stddev : Option ℚ
  mag : Option ℚ
  zp_fict : Option ℚ
  zero_point : Option ℚ
  nsamples : Nat
  begin_tstamp : Option ℚ
  end_tstamp : Option ℚ
deriving DecidableEq

/-- A row of the samples_t table. -/
structure SampleRec where
  tstamp : ℚ
  role : PyRole
  freq : ℚ
deriving DecidableEq

/-- A row of the summary_t table as read back by the verifier (the
fields its checks touch). -/
structure SummaryRec where
  role : PyRole
  nrounds : Option Nat
  zp_offset : ℚ
  zero_point : ℚ
  zero_point_method : PyMethodVal
  freq : ℚ
  freq_method : PyMethodVal
  mag : ℚ
deriving DecidableEq

/-- The magnitude function of dbase/qa.py (lines 71 and 72):
zp - 2.5 * log10(freq), with no frequency offset subtracted. -/
noncomputable def qaMagnitude (zp freq : ℚ) : ℝ :=
  (zp : ℝ) - 2.5 * Real.logb 10 (freq : ℝ)

/-- DbgRound.assert_round_magnitude holds: the stored fields are
non-null and the stored magnitude is within 0.005 of
zp_fict - 2.5 * log10(freq). -/
def assertRoundMagnitudeOk (r : RoundRec) : Prop :=
  ∃ f z m, r.freq = some f ∧ r.zp_fict = some z ∧ r.mag = some m ∧
    |(m : ℝ) - qaMagnitude z f| < 5 / 1000

/-- DbgRound.assert_round_magnitude raises TypeError instead of an
assertion outcome: one of the fields it reads is NULL (None takes part
in arithmetic or math.log10). -/
def roundMagnitudeTypeError (r : RoundRec) : Prop :=
  r.freq = none ∨ r.zp_fict = none ∨ r.mag = none

/-- DbgRound.assert_no_timestamps holds. -/
def assertNoTimestampsOk (r : RoundRec) : Prop :=
  r.begin_tstamp = none ∧ r.end_tstamp = none

/-- sorted() over the samples associated to a round, by timestamp. -/
def sortSamples (xs : List SampleRec) : List SampleRec :=
  List.insertionSort (fun a b => a.tstamp ≤ b.tstamp) xs

/-- DbgRound.assert_samples holds on the sorted sample list: stored
count matches, window boundary timestamps equal the first and last
sample timestamps, and every sample has the round role.  With an empty
list the subscript samples[0] raises IndexError instead; that case is
part of roundCheckErrors. -/
def assertSamplesOk (r : RoundRec) (samples : List SampleRec) : Prop :=
  r.nsamples = samples.length ∧
  (∃ s0, samples.head? = some s0 ∧ r.begin_tstamp = some s0.tstamp) ∧
  (∃ sl, samples.getLast? = some sl ∧ r.end_tstamp = some sl.tstamp) ∧
  ∀ s ∈ samples, s.role = r.role

/-- DbgRound.assert_freq_from_samples holds: the stored central
frequency is within 0.0005 of the recomputed one and the stored
standard deviation is within 0.005 of statistics.stdev of the sample
frequencies referenced to the recomputed central frequency. -/
def assertFreqFromSamplesOk (r : RoundRec) (samples : List SampleRec) : Prop :=
  let freqs := samples.map (fun s => s.freq)
  let cfreq := qaCentral r.central freqs
  (∃ f, r.freq = some f ∧ |f - cfreq| < 1 / 2000) ∧
  (∃ sd, r.stddev = some sd ∧ |(sd : ℝ) - pyStdev cfreq freqs| < 5 / 1000)

/-- DbgRound.check of dbase/qa.py runs to its success log line: the
magnitude assertion passes, then either the no-samples branch applies
(a positive stored sample count while the summary has no stored
samples at all) and the window timestamps are null, or the sample and
frequency assertions pass on the sorted associated samples. -/
def roundCheckPasses (r : RoundRec) (roundSamples : List SampleRec)
    (summarySamples : List SampleRec) : Prop :=
  assertRoundMagnitudeOk r ∧
  (if 0 < r.nsamples ∧ summarySamples = [] then assertNoTimestampsOk r
   else assertSamplesOk r (sortSamples roundSamples) ∧
        assertFreqFromSamplesOk r (sortSamples roundSamples))

/-- Sufficient conditions under which DbgRound.check raises a Python
exception that is not an AssertionError: a NULL field reaches the
magnitude computation (TypeError), or the no-samples branch is not
taken, the stored count is zero and the associated sample list is
empty, so samples[0] raises IndexError after the count assertion
passes. -/
def roundCheckErrors (r : RoundRec) (roundSamples : List SampleRec)
    (summarySamples : List SampleRec) : Prop :=
  roundMagnitudeTypeError r ∨
  (¬(0 < r.nsamples ∧ summarySamples = []) ∧
    sortSamples roundSamples = [] ∧ r.nsamples = 0)

/-- DbgSummary.assert_nrounds holds. -/
def assertNroundsOk (s : SummaryRec) (rounds : List RoundRec) : Prop :=
  s.nrounds = none ∨ s.nrounds = some rounds.length

/-- DbgSummary.assert_freq_from_rounds holds: the recomputed central of
the round frequencies is within 0.0005 of the stored one. -/
def assertFreqFromRoundsOk (s : SummaryRec) (rounds : List RoundRec) : Prop :=
  |qaCentral s.freq_method (rounds.map (fun r => r.freq.getD 0)) - s.freq| < 1 / 2000

/-- DbgSummary.assert_mag_from_rounds holds: the magnitude recomputed
from the recomputed frequency at the fictitious zero point of the
first round is within 0.005 of the stored one, and so is the central
of the per-round recomputed magnitudes. -/
def assertMagFromRoundsOk (s : SummaryRec) (rounds : List RoundRec) : Prop :=
  (∃ r0, rounds.head? = some r0 ∧
    |qaMagnitude (r0.zp_fict.getD 0)
        (qaCentral s.freq_method (rounds.map (fun r => r.freq.getD 0))) - (s.mag : ℝ)|
      < 5 / 1000) ∧
  |qaCentral (α := ℝ) s.freq_method
      (rounds.map (fun r => qaMagnitude (r.zp_fict.getD 0) (r.freq.getD 0))) - (s.mag : ℝ)|
    < 5 / 1000

/-- DbgSummary.assert_zp_from_rounds holds: the stored zero point is
within 0.005 of the recomputed central of the round zero points plus
the stored operator offset. -/
def assertZpFromRoundsOk (s : SummaryRec) (rounds : List RoundRec) : Prop :=
  |qaCentral s.zero_point_method (rounds.map (fun r => r.zero_point.getD 0)) + s.zp_offset
    - s.zero_point| < 5 / 1000

/-- DbgSummary.check of dbase/qa.py runs to its success log line: the
round count assertion passes, and when a round count is stored, the
frequency and magnitude assertions pass and, for the test role only,
the zero point assertion passes. -/
def summaryCheckPasses (s : SummaryRec) (rounds : List RoundRec) : Prop :=
  assertNroundsOk s rounds ∧
  (s.nrounds ≠ none →
    assertFreqFromRoundsOk s rounds ∧ assertMagFromRoundsOk s rounds ∧
    (s.role = .test → assertZpFromRoundsOk s rounds))

/-! ## The ring buffer aggregator (zptess/ring.py) -/

/-- RingBuffer.magnitude (line 57 of ring.py): the configured zero
point minus 2.5 * log10 of the frequency minus the configured
frequency offset. -/
noncomputable def ringMagnitude (zp fo f : ℚ) : ℝ :=
  (zp : ℝ) - 2.5 * Real.logb 10 ((f : ℝ) - (fo : ℝ))

/-- RingBuffer.statistics (lines 63 to 68 of ring.py) on the buffered
frequencies: the low median, the arithmetic mean, and
statistics.stdev of the frequencies referenced to the arithmetic mean
(the variable aver of the source), in that order. -/
noncomputable def ringStatistics (freqs : List ℚ) : ℚ × ℚ × ℝ :=
  (pyMedianLow freqs, pyMean freqs, pyStdev (pyMean freqs) freqs)

/-! ## Concrete fixtures used by witnesses and counterexamples -/

/-- A round record in the shape claim C6 describes for a silent
device: zero stored samples, null central values and null window
timestamps. -/
def emptyRound : RoundRec :=
  { seq := 1
    role := .test
    freq := none
    central := .str "median"
    stddev := none
    mag := none
    zp_fict := some (41 / 2)
    zero_point := none
    nsamples := 0
    begin_tstamp := none
    end_tstamp := none }

/-- A round record with a positive stored sample count, null window
timestamps, and stored central frequency 1000, fictitious zero point
20.5 and magnitude 13 = 20.5 - 2.5 * log10(1000), which satisfies the
magnitude assertion of the verifier exactly. -/
def silentRound : RoundRec :=
  { seq := 1
    role := .test
    freq := some 1000
    central := .str "median"
    stddev := some 0
    mag := some 13
    zp_fict := some (41 / 2)
    zero_point := none
    nsamples := 5
    begin_tstamp := none
    end_tstamp := none }

/-- A round of the claim C4 scenario carrying a given zero point. -/
def zpRound (z : ℚ) : RoundRec :=
  { seq := 1
    role := .test
    freq := some 1000
    central := .str "mean"
    stddev := some 0
    mag := some 13
    zp_fict := some (41 / 2)
    zero_point := some z
    nsamples := 25
    begin_tstamp := some 0
    end_tstamp := some 1 }

/-- The three rounds of the claim C4 scenario, with zero points 20.40,
20.45 and 20.42. -/
def testRounds : List RoundRec :=
  [zpRound (102 / 5), zpRound (409 / 20), zpRound (1021 / 50)]

/-- The summary of the claim C4 scenario: test role, three rounds,
method mean stored as the database string, operator offset 0.05, and
the stored zero point set to exactly mean of the round zero points
plus the offset, which is 20.47333, the value the claim calls
correct. -/
def testSummary : SummaryRec :=
  { role := .test
    nrounds := some 3
    zp_offset := 1 / 20
    zero_point := 3071 / 150
    zero_point_method := .str "mean"
    freq := 1000
    freq_method := .str "mean"
    mag := 13 }

/-- The frequency window of the round aggregation example of the
spec. -/
def specWindow : List ℚ := [1000, 1010, 995, 1005, 1000]

/-! ## Helper lemmas -/

/-- Quadratic expansion of the sum of squared deviations around an
arbitrary reference against another one. -/
theorem sumSqDev_expand (xs : List ℚ) (c m : ℚ) :
    sumSqDev c xs =
      sumSqDev m xs + 2 * (m - c) * (xs.sum - xs.length * m) + xs.length * (m - c) ^ 2 := by
  induction xs with
  | nil => simp [sumSqDev]
  | cons x xs ih =>
      simp only [sumSqDev, List.map_cons, List.sum_cons, List.length_cons] at *
      push_cast
      nlinarith [ih]

/-- The sum of a nonempty list is its length times its mean. -/
theorem sum_eq_length_mul_mean (xs : List ℚ) (h : xs ≠ []) :
    xs.sum = (xs.length : ℚ) * pyMean xs := by
  have hn : (xs.length : ℚ) ≠ 0 := by
    simpa using h
  field_simp [pyMean]

/-- The mean minimises the sum of squared deviations: deviation sums
around any reference exceed those around the mean by the length times
the squared distance of the reference from the mean. -/
theorem sumSqDev_mean_min (xs : List ℚ) (c : ℚ) (h : xs ≠ []) :
    sumSqDev c xs = sumSqDev (pyMean xs) xs + xs.length * (pyMean xs - c) ^ 2 := by
  have h2 := sumSqDev_expand xs c (pyMean xs)
  rw [sum_eq_length_mul_mean xs h] at h2
  simpa using h2

/-- Base-ten logarithm of 1000. -/
theorem logb_thousand : Real.logb 10 1000 = 3 := by
  have h : (1000 : ℝ) = 10 ^ (3 : ℕ) := by norm_num
  rw [h, Real.logb_pow, Real.logb_self_eq_one] <;> norm_num

/-- Lower bound for the base-ten logarithm of 10/9. -/
theorem logb_ten_ninths : (1 : ℝ) / 22 ≤ Real.logb 10 (10 / 9) := by
  have h10 : (10 : ℝ) ≤ (10 / 9 : ℝ) ^ (22 : ℕ) := by
    rw [div_pow, le_div_iff₀ (by positivity)]
    norm_num
  have h1 : Real.logb 10 10 ≤ Real.logb 10 ((10 / 9 : ℝ) ^ (22 : ℕ)) :=
    Real.logb_le_logb_of_le (by norm_num) (by norm_num) h10
  rw [Real.logb_pow, Real.logb_self_eq_one (by norm_num)] at h1
  linarith

/-- Base-ten logarithm of 900 in terms of that of 10/9. -/
theorem logb_nine_hundred : Real.logb 10 900 = 3 - Real.logb 10 (10 / 9) := by
  have h : (900 : ℝ) = 1000 / (10 / 9) := by norm_num
  rw [h, Real.logb_div (by norm_num) (by norm_num), logb_thousand]

/-! ## Claims -/

/-- Claim C1: the legacy decoder extracts the five-digit frequency
field scaled by 1 for the Hz variant and by 1/1000 for the mHz
variant, and the three signed four-digit fields scaled by 1/100;
whenever a frame matches one of the two fixed-width patterns, decode
reports it handled with exactly those scaled field values and the
arrival timestamp. -/
theorem claim_C1_legacy_decode (prev : Option OldMessage) (s : String) (t : ℚ)
    (g : OldGroups) (h : oldMatch s = some g) :
    (oldDecode prev s t).1 =
      (true, some
        { freq := if g.hz then (g.freqNum : ℚ) / 1 else (g.freqNum : ℚ) / 1000
          tbox := (g.tboxNum : ℚ) / 100
          tsky := (g.tskyNum : ℚ) / 100
          zp := (g.mzNum : ℚ) / 100
          tstamp := t }) := by
  simp [oldDecode, h, oldBuildMessage]

/-- Witness for claim C1: the frame of the spec decodes to
freq 4606.0, tbox 29.87, tsky 24.81 and zp 0.00. -/
theorem claim_C1_witness :
    oldMatch "<fH 04606><tA +2987><tO +2481><mZ -0000>" =
      some { hz := true, freqNum := 4606, tboxNum := 2987, tskyNum := 2481, mzNum := 0 } ∧
    (oldDecode none "<fH 04606><tA +2987><tO +2481><mZ -0000>" 0).1 =
      (true, some { freq := 4606, tbox := 2987 / 100, tsky := 2481 / 100, zp := 0, tstamp := 0 }) := by
  have h : oldMatch "<fH 04606><tA +2987><tO +2481><mZ -0000>" =
      some { hz := true, freqNum := 4606, tboxNum := 2987, tskyNum := 2481, mzNum := 0 } := by
    decide
  refine ⟨h, ?_⟩
  have h2 := claim_C1_legacy_decode none _ 0 _ h
  rw [h2]
  norm_num

/-- Counterexample for claim C2: running the structured-text decoder
over four accepted frames whose middle two carry the same sequence
indicator udp 1, the readings emitted are the first frame and the
second member of the identical pair; the reading of the first member
of the pair (udp 1, freq 11, tstamp 1) is never emitted, contradicting
the claim that the first of the two is the one emitted. -/
theorem claim_C2_counterexample :
    (jsonRun none
      [(ParsedFrame.dict [("udp", JVal.num 0), ("freq", JVal.num 10)], 0),
       (ParsedFrame.dict [("udp", JVal.num 1), ("freq", JVal.num 11)], 1),
       (ParsedFrame.dict [("udp", JVal.num 1), ("freq", JVal.num 12)], 2),
       (ParsedFrame.dict [("udp", JVal.num 2), ("freq", JVal.num 13)], 3)]).map
        (fun p => emittedReadings p.1) =
      Except.ok
        [[("udp", JVal.num 0), ("freq", JVal.num 10), ("tstamp", JVal.dt 0)],
         [("udp", JVal.num 1), ("freq", JVal.num 12), ("tstamp", JVal.dt 2)]] ∧
    ([("udp", JVal.num 1), ("freq", JVal.num 11), ("tstamp", JVal.dt 1)] : JObject) ∉
      [[("udp", JVal.num 0), ("freq", JVal.num 10), ("tstamp", JVal.dt 0)],
       [("udp", JVal.num 1), ("freq", JVal.num 12), ("tstamp", JVal.dt 2)]] := by
  constructor
  · rfl
  · decide

/-- Claim C2 as amended: of two consecutive structured frames with the
same sequence indicator, exactly one reading survives, namely the
second: the step on the duplicate emits nothing and replaces the
retained message with the second message, discarding the first; legacy
frames have no sequence indicator and every successfully decoded
legacy frame is returned as handled with its own freshly decoded
message, never suppressed. -/
theorem claim_C2_dedup :
    (∀ (p o : JObject) (t : ℚ) (u : JVal),
        jsonGet p "udp" = some u →
        jsonGet (jsonSet o "tstamp" (JVal.dt t)) "udp" = some u →
        jsonDecode (some p) (.dict o) t =
          .ok ((true, none), some (jsonSet o "tstamp" (JVal.dt t)))) ∧
    (∀ (prev : Option OldMessage) (s : String) (t : ℚ) (g : OldGroups),
        oldMatch s = some g →
        (oldDecode prev s t).1 = (true, some (oldBuildMessage g t))) := by
  constructor
  · intro p o t u h1 h2
    simp [jsonDecode, jsonDeduplicate, h1, h2]
  · intro prev s t g h
    simp [oldDecode, h]

/-- Witness for claim C2: a duplicate pair at udp 1 emits nothing at
the duplicate step and retains the second message, and a matching
legacy frame is emitted unconditionally. -/
theorem claim_C2_witness :
    jsonGet [("udp", JVal.num 1), ("freq", JVal.num 11), ("tstamp", JVal.dt 1)] "udp" =
      some (JVal.num 1) ∧
    jsonGet (jsonSet [("udp", JVal.num 1), ("freq", JVal.num 12)] "tstamp" (JVal.dt 2)) "udp" =
      some (JVal.num 1) ∧
    jsonDecode (some [("udp", JVal.num 1), ("freq", JVal.num 11), ("tstamp", JVal.dt 1)])
        (.dict [("udp", JVal.num 1), ("freq", JVal.num 12)]) 2 =
      .ok ((true, none),
        some (jsonSet [("udp", JVal.num 1), ("freq", JVal.num 12)] "tstamp" (JVal.dt 2))) ∧
    oldMatch "<fH 00100><tA +0100><tO +0100><mZ +2050>" =
      some { hz := true, freqNum := 100, tboxNum := 100, tskyNum := 100, mzNum := 2050 } ∧
    (oldDecode none "<fH 00100><tA +0100><tO +0100><mZ +2050>" 7).1 =
      (true, some (oldBuildMessage
        { hz := true, freqNum := 100, tboxNum := 100, tskyNum := 100, mzNum := 2050 } 7)) := by
  refine ⟨by decide, by decide, ?_, by decide, ?_⟩
  · exact claim_C2_dedup.1 _ _ 2 (JVal.num 1) (by decide) (by decide)
  · exact claim_C2_dedup.2 none _ 7 _ (by decide)

/-- Counterexample for claim C10: a later accepted frame does not
always return the previously retained message: when its sequence
indicator equals the retained one, decode returns (True, None), not
the retained message. -/
theorem claim_C10_counterexample :
    jsonDecode (some [("udp", JVal.num 1), ("freq", JVal.num 11), ("tstamp", JVal.dt 1)])
        (.dict [("udp", JVal.num 1), ("freq", JVal.num 12)]) 2 =
      .ok ((true, none),
        some [("udp", JVal.num 1), ("freq", JVal.num 12), ("tstamp", JVal.dt 2)]) ∧
    (none : Option JObject) ≠
      some [("udp", JVal.num 1), ("freq", JVal.num 11), ("tstamp", JVal.dt 1)] := by
  exact ⟨rfl, by decide⟩

/-- Claim C10 as amended: the structured-text decoder emits readings
delayed by one frame: the first parsed dict returns (True, None) and
retains the message; a later accepted frame returns the previously
retained message when the sequence indicators differ and None when
they are equal, and in either case never the message just decoded. -/
theorem claim_C10_delayed :
    (∀ (o : JObject) (t : ℚ),
        jsonDecode none (.dict o) t =
          .ok ((true, none), some (jsonSet o "tstamp" (JVal.dt t)))) ∧
    (∀ (p o : JObject) (t : ℚ) (pu mu : JVal),
        jsonGet p "udp" = some pu →
        jsonGet (jsonSet o "tstamp" (JVal.dt t)) "udp" = some mu →
        jsonDecode (some p) (.dict o) t =
          .ok ((true, if pu ≠ mu then some p else none),
            some (jsonSet o "tstamp" (JVal.dt t))) ∧
        (if pu ≠ mu then some p else none) ≠ some (jsonSet o "tstamp" (JVal.dt t))) := by
  constructor
  · intro o t
    simp [jsonDecode, jsonDeduplicate]
  · intro p o t pu mu h1 h2
    constructor
    · simp [jsonDecode, jsonDeduplicate, h1, h2]
    · by_cases hne : pu ≠ mu
      · simp only [if_pos hne]
        intro hc
        apply hne
        have hpm : p = jsonSet o "tstamp" (JVal.dt t) := Option.some.inj hc
        rw [hpm] at h1
        rw [h1] at h2
        exact Option.some.inj h2
      · simp only [if_neg hne]
        exact fun hc => Option.noConfusion hc

/-- Witness for claim C10: the first frame returns (True, None); a
second frame with a different sequence indicator returns the retained
first message, which is not the second message. -/
theorem claim_C10_witness :
    jsonDecode none (.dict [("udp", JVal.num 1), ("freq", JVal.num 11)]) 1 =
      .ok ((true, none),
        some (jsonSet [("udp", JVal.num 1), ("freq", JVal.num 11)] "tstamp" (JVal.dt 1))) ∧
    jsonGet [("udp", JVal.num 1), ("freq", JVal.num 11), ("tstamp", JVal.dt 1)] "udp" =
      some (JVal.num 1) ∧
    jsonGet (jsonSet [("udp", JVal.num 2), ("freq", JVal.num 12)] "tstamp" (JVal.dt 2)) "udp" =
      some (JVal.num 2) ∧
    jsonDecode (some [("udp", JVal.num 1), ("freq", JVal.num 11), ("tstamp", JVal.dt 1)])
        (.dict [("udp", JVal.num 2), ("freq", JVal.num 12)]) 2 =
      .ok ((true,
        if (JVal.num 1) ≠ (JVal.num 2) then
          some [("udp", JVal.num 1), ("freq", JVal.num 11), ("tstamp", JVal.dt 1)]
        else none),
        some (jsonSet [("udp", JVal.num 2), ("freq", JVal.num 12)] "tstamp" (JVal.dt 2))) ∧
    (if (JVal.num 1) ≠ (JVal.num 2) then
        some [("udp", JVal.num 1), ("freq", JVal.num 11), ("tstamp", JVal.dt 1)]
      else none) ≠
      some (jsonSet [("udp", JVal.num 2), ("freq", JVal.num 12)] "tstamp" (JVal.dt 2)) := by
  refine ⟨claim_C10_delayed.1 _ 1, by decide, by decide, ?_, ?_⟩
  · exact (claim_C10_delayed.2 _ _ 2 (JVal.num 1) (JVal.num 2) (by decide) (by decide)).1
  · exact (claim_C10_delayed.2 _ _ 2 (JVal.num 1) (JVal.num 2) (by decide) (by decide)).2

/-- Counterexample for claim C8: decode can raise rather than return a
rejection result: with a retained previous message, an accepted dict
frame lacking the udp key makes the deduplication lookup raise
KeyError, which escapes decode. -/
theorem claim_C8_counterexample :
    jsonDecode (some [("udp", JVal.num 1), ("freq", JVal.num 11), ("tstamp", JVal.dt 1)])
        (.dict [("freq", JVal.num 12)]) 2 =
      .error "KeyError: udp" := by
  rfl

/-- Claim C8 as amended: a legacy frame matching neither fixed-width
pattern is rejected with (False, None) and the legacy decoder is a
total function of the frame text; a structured frame that does not
parse, or parses to a non-dict value, is rejected with (False, None);
but an accepted dict frame raises KeyError out of decode whenever the
retained message or the new message lacks the udp key while a previous
message is retained. -/
theorem claim_C8_rejection :
    (∀ (prev : Option OldMessage) (s : String) (t : ℚ),
        oldMatch s = none → oldDecode prev s t = ((false, none), prev)) ∧
    (∀ (prev : Option JObject) (t : ℚ),
        jsonDecode prev .malformed t = .ok ((false, none), prev)) ∧
    (∀ (prev : Option JObject) (v : JVal) (t : ℚ),
        jsonDecode prev (.nonDict v) t = .ok ((false, none), prev)) ∧
    (∀ (p o : JObject) (t : ℚ),
        (jsonGet p "udp" = none ∨ jsonGet (jsonSet o "tstamp" (JVal.dt t)) "udp" = none) →
        jsonDecode (some p) (.dict o) t = .error "KeyError: udp") := by
  refine ⟨?_, ?_, ?_, ?_⟩
  · intro prev s t h
    simp [oldDecode, h]
  · intro prev t
    rfl
  · intro prev v t
    rfl
  · intro p o t h
    rcases h with h | h
    · simp [jsonDecode, jsonDeduplicate, h]
    · cases hp : jsonGet p "udp" with
      | none => simp [jsonDecode, jsonDeduplicate, hp]
      | some pu => simp [jsonDecode, jsonDeduplicate, hp, h]

/-- Witness for claim C8: a non-matching legacy frame and the two
rejected structured outcomes return (False, None), and a dict frame
without the udp key raises with a retained previous message. -/
theorem claim_C8_witness :
    oldMatch "fH 04606" = none ∧
    oldDecode none "fH 04606" 3 = ((false, none), none) ∧
    jsonDecode (some [("udp", JVal.num 1)]) .malformed 3 =
      .ok ((false, none), some [("udp", JVal.num 1)]) ∧
    jsonDecode (some [("udp", JVal.num 1)]) (.nonDict (JVal.num 42)) 3 =
      .ok ((false, none), some [("udp", JVal.num 1)]) ∧
    jsonGet (jsonSet [("freq", JVal.num 12)] "tstamp" (JVal.dt 2)) "udp" = none ∧
    jsonDecode (some [("udp", JVal.num 1)]) (.dict [("freq", JVal.num 12)]) 2 =
      .error "KeyError: udp" := by
  refine ⟨by decide, ?_, ?_, ?_, by decide, ?_⟩
  · exact claim_C8_rejection.1 none _ 3 (by decide)
  · exact claim_C8_rejection.2.1 _ 3
  · exact claim_C8_rejection.2.2.1 _ (JVal.num 42) 3
  · exact claim_C8_rejection.2.2.2 _ _ 2 (Or.inr (by decide))

/-- Counterexample for claim C7: with four readings already pending,
the queue-based producer still enqueues the newest reading, because
asyncio.Queue() is created with no maxsize and is never full, while
the stream-based producer, which does feed the bounded capacity-4
channel of the controller, suspends on send instead of dropping and
logging. -/
theorem claim_C7_counterexample :
    putNowait { maxsize := 0, items := [(1 : ℚ), 2, 3, 4] } 5 =
      .ok { maxsize := 0, items := [1, 2, 3, 4, 5] } ∧
    queueHandleReadings { maxsize := 0, items := [(1 : ℚ), 2, 3, 4] } true 5 =
      ({ maxsize := 0, items := [1, 2, 3, 4, 5] }, false) ∧
    streamHandleReadings [(1 : ℚ), 2, 3, 4] true 5 = SendOutcome.blocked := by
  refine ⟨by decide, by decide, by decide⟩

/-- Claim C7 as amended: the queue-based producer never blocks and
never discards a reading because its queue is unbounded (put_nowait on
a queue with maxsize 0 always succeeds, so the drop-and-log branch is
unreachable); the stream-based producer feeding the bounded
capacity-4 channel suspends while the buffer is full and enqueues
without dropping while there is room. -/
theorem claim_C7_channel :
    (∀ (α : Type) (q : AsyncioQueue α) (m : α), q.maxsize = 0 →
        putNowait q m = .ok { q with items := q.items ++ [m] }) ∧
    (∀ (α : Type) (q : AsyncioQueue α) (flag : Bool) (m : α), q.maxsize = 0 →
        (queueHandleReadings q flag m).2 = false) ∧
    (∀ (α : Type) (buffer : List α) (m : α), controllerBufferSize ≤ buffer.length →
        streamHandleReadings buffer true m = SendOutcome.blocked) ∧
    (∀ (α : Type) (buffer : List α) (m : α), buffer.length < controllerBufferSize →
        streamHandleReadings buffer true m = SendOutcome.sent (buffer ++ [m])) := by
  refine ⟨?_, ?_, ?_, ?_⟩
  · intro α q m h
    simp [putNowait, h]
  · intro α q flag m h
    cases flag with
    | false => simp [queueHandleReadings]
    | true => simp [queueHandleReadings, putNowait, h]
  · intro α buffer m h
    simp [streamHandleReadings, streamSend, Nat.not_lt.mpr h]
  · intro α buffer m h
    simp [streamHandleReadings, streamSend, h]

/-- Witness for claim C7: concrete instances of the unbounded-queue
and bounded-stream behaviours. -/
theorem claim_C7_witness :
    (({ maxsize := 0, items := [(1 : ℚ), 2, 3, 4] } : AsyncioQueue ℚ).maxsize = 0 ∧
      putNowait ({ maxsize := 0, items := [(1 : ℚ), 2, 3, 4] } : AsyncioQueue ℚ) 5 =
        .ok { maxsize := 0, items := [(1 : ℚ), 2, 3, 4] ++ [5] }) ∧
    (queueHandleReadings ({ maxsize := 0, items := [(1 : ℚ), 2, 3, 4] } : AsyncioQueue ℚ)
        true 5).2 = false ∧
    (controllerBufferSize ≤ ([(1 : ℚ), 2, 3, 4] : List ℚ).length ∧
      streamHandleReadings [(1 : ℚ), 2, 3, 4] true 5 = SendOutcome.blocked) ∧
    (([(1 : ℚ), 2, 3] : List ℚ).length < controllerBufferSize ∧
      streamHandleReadings [(1 : ℚ), 2, 3] true 5 = SendOutcome.sent ([(1 : ℚ), 2, 3] ++ [5])) := by
  refine ⟨⟨rfl, claim_C7_channel.1 ℚ _ 5 rfl⟩,
    claim_C7_channel.2.1 ℚ _ true 5 rfl,
    ⟨by decide, claim_C7_channel.2.2.1 ℚ _ 5 (by decide)⟩,
    ⟨by decide, claim_C7_channel.2.2.2 ℚ _ 5 (by decide)⟩⟩

/-- Counterexample for claim C6: a round in exactly the shape the claim
describes, nsamples 0 with null window timestamps and null central
values, is not handled by the verifier: its check does not pass (the
magnitude recomputation reads the null frequency and magnitude,
raising TypeError), so nsamples 0 rounds receive no null-value
treatment; the null-timestamp branch of the code requires a positive
nsamples instead. -/
theorem claim_C6_counterexample :
    emptyRound.nsamples = 0 ∧ assertNoTimestampsOk emptyRound ∧
    ¬ roundCheckPasses emptyRound [] [] ∧ roundCheckErrors emptyRound [] [] := by
  refine ⟨rfl, ⟨rfl, rfl⟩, ?_, Or.inl (Or.inl rfl)⟩
  rintro ⟨⟨f, z, m, hf, -⟩, -⟩
  exact Option.noConfusion hf

/-- Claim C6 as amended: the null-timestamp acceptance branch of the
verifier applies to rounds with a positive stored sample count whose
summary has no stored samples, in which case the check passes exactly
when the magnitude assertion holds and both window timestamps are
null; a round with nsamples 0 is never accepted by the verifier: with
no associated samples its check raises (TypeError on null fields, or
IndexError on the empty sample list), and no component enforces that
nsamples 0 implies null central values or timestamps. -/
theorem claim_C6_rounds :
    (∀ (r : RoundRec) (rs : List SampleRec), 0 < r.nsamples →
        (roundCheckPasses r rs [] ↔ assertRoundMagnitudeOk r ∧ assertNoTimestampsOk r)) ∧
    (∀ (r : RoundRec) (ss : List SampleRec), r.nsamples = 0 →
        roundCheckErrors r [] ss) ∧
    (∀ (r : RoundRec) (rs ss : List SampleRec), r.nsamples = 0 →
        ¬ roundCheckPasses r rs ss) := by
  refine ⟨?_, ?_, ?_⟩
  · intro r rs h
    unfold roundCheckPasses
    rw [if_pos ⟨h, rfl⟩]
  · intro r ss h
    exact Or.inr ⟨by simp [h], by simp [sortSamples], h⟩
  · intro r rs ss h
    rintro ⟨-, hrest⟩
    rw [if_neg (by simp [h])] at hrest
    obtain ⟨⟨hlen, ⟨s0, hs0, -⟩, -⟩, -⟩ := hrest
    rw [h] at hlen
    rw [List.length_eq_zero.mp hlen.symm] at hs0
    exact Option.noConfusion hs0

/-- Witness for claim C6: the silent-device fixture with five reported
samples and no stored summary samples is accepted exactly when its
magnitude assertion holds and its window timestamps are null, while
the nsamples 0 fixture of the claim raises and is never accepted. -/
theorem claim_C6_witness :
    (0 < silentRound.nsamples ∧
      (roundCheckPasses silentRound [] [] ↔
        assertRoundMagnitudeOk silentRound ∧ assertNoTimestampsOk silentRound)) ∧
    (emptyRound.nsamples = 0 ∧ roundCheckErrors emptyRound [] []) ∧
    ¬ roundCheckPasses emptyRound [] [] := by
  exact ⟨⟨by decide, claim_C6_rounds.1 _ [] (by decide)⟩,
    ⟨rfl, claim_C6_rounds.2.1 _ [] rfl⟩,
    claim_C6_rounds.2.2 _ [] [] rfl⟩

/-- Claim C4 evaluated against the code: the fixture summary stores
exactly the zero point the claim calls correct, mean of the round zero
points plus the operator offset, yet the verifier rejects it, because
the central dispatch of qa.py compares the string-valued method column
against CentralTendency enum members, never matches, and always
applies statistics.mode: for zero points 20.40, 20.45 and 20.42 with
method mean and offset 0.05 the verifier demands closeness to
mode + offset = 20.45 instead of mean + offset = 20.47333, a
difference of 0.02333 that exceeds the 0.005 tolerance.  The sibling
central function of dbase/fix.py compares against the string values of
the enum members, evidencing that the spec formula is the intent. -/
theorem claim_C4_zero_point :
    testSummary.zero_point =
      pyMean (testRounds.map (fun r => r.zero_point.getD 0)) + testSummary.zp_offset ∧
    qaCentral (α := ℚ) (PyMethodVal.str "mean") = pyMode ∧
    qaCentral testSummary.zero_point_method
      (testRounds.map (fun r => r.zero_point.getD 0)) = 102 / 5 ∧
    ¬ assertZpFromRoundsOk testSummary testRounds ∧
    ¬ summaryCheckPasses testSummary testRounds := by
  have hmode : qaCentral testSummary.zero_point_method
      (testRounds.map (fun r => r.zero_point.getD 0)) = 102 / 5 := by
    norm_num [qaCentral, pyEqMethod, pyMode, testSummary, testRounds, zpRound, List.countP,
      List.countP.go]
  have hzp : ¬ assertZpFromRoundsOk testSummary testRounds := by
    unfold assertZpFromRoundsOk
    rw [hmode]
    intro hlt
    rw [abs_lt] at hlt
    have h1 := hlt.1
    norm_num [testSummary] at h1
  refine ⟨?_, rfl, hmode, hzp, ?_⟩
  · norm_num [testSummary, testRounds, zpRound, pyMean]
  · rintro ⟨-, himp⟩
    obtain ⟨-, -, hz⟩ := himp (by simp [testSummary])
    exact hzp (hz rfl)

/-- Counterexample for claim C3: on the frequency window of the spec
example, 1000 1010 995 1005 1000 with method median, the online
aggregator stores the low median 1000 as the central frequency but
computes the standard deviation against the arithmetic mean 1002 (the
variable aver of ring.py), giving sqrt(65/2), which is strictly
smaller than sqrt(75/2), the sample standard deviation referenced to
the chosen central frequency 1000 that the claim asserts is stored. -/
theorem claim_C3_counterexample :
    ringStatistics [1000, 1010, 995, 1005, 1000] =
      (1000, 1002, Real.sqrt ((65 / 2 : ℚ) : ℝ)) ∧
    pyStdev 1000 [1000, 1010, 995, 1005, 1000] = Real.sqrt ((75 / 2 : ℚ) : ℝ) ∧
    pyMedianLow ([1000, 1010, 995, 1005, 1000] : List ℚ) = 1000 ∧
    Real.sqrt ((65 / 2 : ℚ) : ℝ) < Real.sqrt ((75 / 2 : ℚ) : ℝ) := by
  have hmed : pyMedianLow ([1000, 1010, 995, 1005, 1000] : List ℚ) = 1000 := by decide
  have hmean : pyMean ([1000, 1010, 995, 1005, 1000] : List ℚ) = 1002 := by
    norm_num [pyMean]
  have hvar : pyVarAgainst (1002 : ℚ) [1000, 1010, 995, 1005, 1000] = 65 / 2 := by
    norm_num [pyVarAgainst, sumSqDev]
  have hvar2 : pyVarAgainst (1000 : ℚ) [1000, 1010, 995, 1005, 1000] = 75 / 2 := by
    norm_num [pyVarAgainst, sumSqDev]
  refine ⟨?_, ?_, hmed, ?_⟩
  · unfold ringStatistics pyStdev
    rw [hmed, hmean, hvar]
  · unfold pyStdev
    rw [hvar2]
  · rw [show ((65 / 2 : ℚ) : ℝ) = (65 / 2 : ℝ) by norm_num,
      show ((75 / 2 : ℚ) : ℝ) = (75 / 2 : ℝ) by norm_num]
    exact Real.sqrt_lt_sqrt (by norm_num) (by norm_num)

/-- Claim C3 as amended: the standard deviation the online aggregator
stores is referenced to the arithmetic mean of the window regardless
of the chosen central method; deviation sums around any other
reference, in particular the low median the aggregator reports as the
central frequency, exceed the stored ones by the window length times
the squared distance of the reference from the mean, strictly whenever
the reference differs from the mean. -/
theorem claim_C3_stddev (xs : List ℚ) (c : ℚ) (h : xs ≠ []) :
    ringStatistics xs =
      (pyMedianLow xs, pyMean xs, Real.sqrt ((pyVarAgainst (pyMean xs) xs : ℚ) : ℝ)) ∧
    sumSqDev c xs = sumSqDev (pyMean xs) xs + xs.length * (pyMean xs - c) ^ 2 ∧
    (c ≠ pyMean xs → sumSqDev (pyMean xs) xs < sumSqDev c xs) := by
  refine ⟨rfl, sumSqDev_mean_min xs c h, ?_⟩
  intro hc
  have h2 := sumSqDev_mean_min xs c h
  have hlen : 0 < (xs.length : ℚ) := by
    have := List.length_pos.mpr h
    exact_mod_cast this
  have hne : pyMean xs - c ≠ 0 := sub_ne_zero.mpr (Ne.symm hc)
  have hsq : 0 < (pyMean xs - c) ^ 2 := by
    rcases lt_trichotomy (pyMean xs - c) 0 with hlt | heq | hgt
    · nlinarith
    · exact absurd heq hne
    · nlinarith
  nlinarith [mul_pos hlen hsq]

/-- Witness for claim C3: the amended statement at the spec window and
the reference 1000, the low median the aggregator reports. -/
theorem claim_C3_witness :
    specWindow ≠ [] ∧
    (ringStatistics specWindow =
      (pyMedianLow specWindow, pyMean specWindow,
        Real.sqrt ((pyVarAgainst (pyMean specWindow) specWindow : ℚ) : ℝ)) ∧
    sumSqDev 1000 specWindow =
      sumSqDev (pyMean specWindow) specWindow +
        specWindow.length * (pyMean specWindow - 1000) ^ 2 ∧
    ((1000 : ℚ) ≠ pyMean specWindow →
      sumSqDev (pyMean specWindow) specWindow < sumSqDev 1000 specWindow)) :=
  ⟨by decide, claim_C3_stddev specWindow 1000 (by decide)⟩

/-- Counterexample for claim C9: on the two-sample list 1  2 the online
aggregator computes the low median 1, while the median function the
verifier dispatches to for the median method averages the two middle
elements to 3/2; the difference 1/2 exceeds the 0.0005 frequency
tolerance, so the two median implementations are not equivalent on
every sample list. -/
theorem claim_C9_counterexample :
    (ringStatistics [1, 2]).1 = 1 ∧
    qaCentral (PyMethodVal.enum .median) ([1, 2] : List ℚ) = 3 / 2 ∧
    ¬ (|(ringStatistics [1, 2]).1 - qaCentral (PyMethodVal.enum .median) ([1, 2] : List ℚ)|
        < 1 / 2000) := by
  have h1 : (ringStatistics [1, 2]).1 = (1 : ℚ) := by
    simp only [ringStatistics]
    decide
  have hd : qaCentral (PyMethodVal.enum .median) = (pyMedian : List ℚ → ℚ) := rfl
  have h2 : qaCentral (PyMethodVal.enum .median) ([1, 2] : List ℚ) = 3 / 2 := by
    rw [hd]
    norm_num [pyMedian, pySorted, List.insertionSort, List.orderedInsert]
  refine ⟨h1, h2, ?_⟩
  rw [h1, h2]
  intro hlt
  rw [abs_lt] at hlt
  have h3 := hlt.1
  norm_num at h3

/-- Claim C9 as amended: on windows of odd length the low median of the
online aggregator and the median the verifier would dispatch to for
the median method coincide (both take the middle element of the sorted
list); they can differ on even counts, where median averages the two
middle elements and median_low takes the lower one. -/
theorem claim_C9_median (xs : List ℚ) (h : xs.length % 2 = 1) :
    (ringStatistics xs).1 = pyMedianLow xs ∧
    qaCentral (PyMethodVal.enum .median) xs = pyMedian xs ∧
    pyMedian xs = pyMedianLow xs := by
  refine ⟨rfl, rfl, ?_⟩
  simp only [pyMedian, pyMedianLow, h, if_pos]

/-- Witness for claim C9: the spec window has odd length five and both
medians evaluate to 1000 there. -/
theorem claim_C9_witness :
    specWindow.length % 2 = 1 ∧
    ((ringStatistics specWindow).1 = pyMedianLow specWindow ∧
     qaCentral (PyMethodVal.enum .median) specWindow = pyMedian specWindow ∧
     pyMedian specWindow = pyMedianLow specWindow) ∧
    pyMedianLow specWindow = 1000 :=
  ⟨by decide, claim_C9_median specWindow (by decide), by decide⟩

/-- Counterexample for claim C5: a round whose stored magnitude is
exactly the offset-free recomputation at frequency 1000 passes the
verifier magnitude assertion, yet with a device frequency offset of
100 the claimed formula zp_fict minus 2.5 log10(freq minus offset),
which is what the online aggregator computes, differs from the stored
magnitude by about 0.114, far beyond the 0.005 tolerance: the verifier
recomputes magnitude without the frequency offset. -/
theorem claim_C5_counterexample :
    assertRoundMagnitudeOk silentRound ∧
    silentRound.freq = some 1000 ∧ silentRound.zp_fict = some (41 / 2) ∧
    silentRound.mag = some 13 ∧
    ¬ (|(13 : ℝ) - ringMagnitude (41 / 2) 100 1000| < 5 / 1000) := by
  have hqa : qaMagnitude (41 / 2) 1000 = 13 := by
    unfold qaMagnitude
    push_cast
    rw [logb_thousand]
    norm_num
  refine ⟨⟨1000, 41 / 2, 13, rfl, rfl, rfl, ?_⟩, rfl, rfl, rfl, ?_⟩
  · rw [hqa]
    norm_num
  · intro hlt
    have ht := logb_ten_ninths
    unfold ringMagnitude at hlt
    push_cast at hlt
    rw [show ((1000 : ℝ) - 100) = 900 by norm_num, logb_nine_hundred] at hlt
    rw [abs_lt] at hlt
    have h1 := hlt.1
    linarith

/-- Claim C5 as amended: the online aggregator magnitude is by
definition zp minus 2.5 log10(freq minus the configured frequency
offset); the verifier magnitude assertion bounds the distance of the
stored magnitude from the offset-free recomputation zp_fict minus
2.5 log10(freq); the two formulas coincide exactly when the frequency
offset is zero. -/
theorem claim_C5_magnitude :
    (∀ zp fo f : ℚ, ringMagnitude zp fo f =
        (zp : ℝ) - 2.5 * Real.logb 10 ((f : ℝ) - (fo : ℝ))) ∧
    (∀ (r : RoundRec) (f z m : ℚ), r.freq = some f → r.zp_fict = some z → r.mag = some m →
        (assertRoundMagnitudeOk r ↔ |(m : ℝ) - qaMagnitude z f| < 5 / 1000)) ∧
    (∀ zp f : ℚ, ringMagnitude zp 0 f = qaMagnitude zp f) := by
  refine ⟨fun zp fo f => rfl, ?_, ?_⟩
  · intro r f z m hf hz hm
    constructor
    · rintro ⟨f2, z2, m2, hf2, hz2, hm2, hlt⟩
      rw [hf] at hf2
      rw [hz] at hz2
      rw [hm] at hm2
      obtain rfl : f = f2 := Option.some.inj hf2
      obtain rfl : z = z2 := Option.some.inj hz2
      obtain rfl : m = m2 := Option.some.inj hm2
      exact hlt
    · intro hlt
      exact ⟨f, z, m, hf, hz, hm, hlt⟩
  · intro zp f
    unfold ringMagnitude qaMagnitude
    norm_num

/-- Witness for claim C5: the magnitude assertion on the concrete round
fixture is exactly the offset-free bound. -/
theorem claim_C5_witness :
    silentRound.freq = some 1000 ∧ silentRound.zp_fict = some (41 / 2) ∧
    silentRound.mag = some 13 ∧
    (assertRoundMagnitudeOk silentRound ↔
      |(13 : ℝ) - qaMagnitude (41 / 2) 1000| < 5 / 1000) :=
  ⟨rfl, rfl, rfl, claim_C5_magnitude.2.1 silentRound 1000 (41 / 2) 13 rfl rfl rfl⟩
